import Mathlib

/-!
Verification development for the docstr-coverage analysis engine.

The definitions below are a shallow embedding of the Python sources:
`docstr_coverage/result_collection.py`, `docstr_coverage/coverage.py`,
`docstr_coverage/visitor.py` and `docstr_coverage/ignore_config.py`.
Python integers are modelled as `Nat` (all counters here only grow from 0),
Python floats produced by `x * 100 / y` are modelled as `ℚ`, a raised
`ZeroDivisionError` is modelled as `Option.none`, and Python's `Optional[str]`
is `Option String`.
-/

namespace DocstrCoverage

/-! ## result_collection.py -/

/-- `FileStatus` enum: every inspected file is `ANALYZED` or `EMPTY`. -/
inductive FileStatus where
  | ANALYZED
  | EMPTY
deriving DecidableEq, Repr

/-- `ExpectedDocstring`: one record about a single expected docstring. -/
structure ExpectedDocstring where
  node_identifier : String
  has_docstring : Bool
  ignore_reason : Option String
deriving DecidableEq, Repr

/-- `File`: the information about docstrings for a single file.
`File.__init__` sets `_expected_docstrings = []` and `_status = ANALYZED`. -/
structure File where
  expected_docstrings : List ExpectedDocstring
  status : FileStatus
deriving DecidableEq, Repr

/-- `File()` constructor. -/
def File.new : File :=
  { expected_docstrings := [], status := FileStatus.ANALYZED }

/-- `File.collect_docstring(identifier, has_docstring, ignore_reason)`:
appends one `ExpectedDocstring` record. -/
def File.collect_docstring (f : File) (identifier : String) (has_docstring : Bool)
    (ignore_reason : Option String) : File :=
  { f with expected_docstrings :=
      f.expected_docstrings ++
        [{ node_identifier := identifier, has_docstring := has_docstring,
           ignore_reason := ignore_reason }] }

/-- The `File.status` setter: a plain, unguarded assignment `self._status = status`. -/
def File.setStatus (f : File) (status : FileStatus) : File :=
  { f with status := status }

/-- Truthiness of a Python `Optional[str]`: `None` and `""` are falsy,
every other string is truthy.  `File.count_aggregate` branches on
`if expd.ignore_reason:`, i.e. on this truthiness, not on `is not None`. -/
def optStrTruthy : Option String → Bool
  | none => false
  | some s => !(s == "")

/-- `FileCount`: counts of docstrings by presence for a single file. -/
structure FileCount where
  needed : Nat
  found : Nat
  missing : Nat
  is_empty : Bool
deriving DecidableEq, Repr

/-- `FileCount()` constructor: `needed=0, found=0, missing=0`, `is_empty = False`. -/
def FileCount.new : FileCount :=
  { needed := 0, found := 0, missing := 0, is_empty := false }

/-- `FileCount.found_needed_docstr()`: `needed += 1; found += 1`. -/
def FileCount.found_needed_docstr (c : FileCount) : FileCount :=
  { c with needed := c.needed + 1, found := c.found + 1 }

/-- `FileCount.missed_needed_docstring()`: `needed += 1; missing += 1`. -/
def FileCount.missed_needed_docstring (c : FileCount) : FileCount :=
  { c with needed := c.needed + 1, missing := c.missing + 1 }

/-- `FileCount.found_empty_file()`: `is_empty = True`. -/
def FileCount.found_empty_file (c : FileCount) : FileCount :=
  { c with is_empty := true }

/-- The single-record step of the loop inside `File.count_aggregate`. -/
def countStep (count : FileCount) (expd : ExpectedDocstring) : FileCount :=
  if optStrTruthy expd.ignore_reason then count
  else if expd.has_docstring then count.found_needed_docstr
  else count.missed_needed_docstring

/-- `File.count_aggregate()`: a fresh `FileCount`; the `EMPTY` status marks the
empty file, otherwise each record is counted by `countStep`. -/
def File.count_aggregate (f : File) : FileCount :=
  if f.status = FileStatus.EMPTY then
    FileCount.new.found_empty_file
  else
    f.expected_docstrings.foldl countStep FileCount.new

/-- `_DocstrCount.coverage()`: `found * 100 / needed`, where the
`ZeroDivisionError` raised for `needed == 0` is caught and turned into `100.0`. -/
def docstrCoverage (found needed : Nat) : ℚ :=
  if needed = 0 then 100 else (found : ℚ) * 100 / (needed : ℚ)

/-- `AggregatedCount`: counts of docstrings by presence for a list of files. -/
structure AggregatedCount where
  num_files : Nat
  num_empty_files : Nat
  needed : Nat
  found : Nat
  missing : Nat
deriving DecidableEq, Repr

/-- `AggregatedCount()` constructor with all-zero defaults. -/
def AggregatedCount.new : AggregatedCount :=
  { num_files := 0, num_empty_files := 0, needed := 0, found := 0, missing := 0 }

/-- The two concrete subclasses of the abstract `_DocstrCount`. -/
inductive DocstrCount where
  | agg : AggregatedCount → DocstrCount
  | file : FileCount → DocstrCount
deriving DecidableEq, Repr

/-- `AggregatedCount.__add__(other)`: `needed`/`found`/`missing` are summed; an
`AggregatedCount` operand adds its `num_files`/`num_empty_files`, a `FileCount`
operand contributes one file and `int(other.is_empty)` empty files.  (Any other
operand raises, which the closed sum type makes unrepresentable.) -/
def AggregatedCount.add (self : AggregatedCount) : DocstrCount → AggregatedCount
  | DocstrCount.agg other =>
      { num_files := self.num_files + other.num_files,
        num_empty_files := self.num_empty_files + other.num_empty_files,
        needed := self.needed + other.needed,
        found := self.found + other.found,
        missing := self.missing + other.missing }
  | DocstrCount.file other =>
      { num_files := self.num_files + 1,
        num_empty_files := self.num_empty_files + (if other.is_empty then 1 else 0),
        needed := self.needed + other.needed,
        found := self.found + other.found,
        missing := self.missing + other.missing }

/-- `AggregatedCount.__eq__`: field-by-field comparison of the five counters. -/
def AggregatedCount.eqFields (self other : AggregatedCount) : Bool :=
  self.num_files == other.num_files
    && self.num_empty_files == other.num_empty_files
    && self.needed == other.needed
    && self.found == other.found
    && self.missing == other.missing

/-- `functools.reduce(operator.add, counts, AggregatedCount())` over the
per-file counts, as in `ResultCollection.count_aggregate`. -/
def reduceFileCounts (counts : List FileCount) : AggregatedCount :=
  counts.foldl (fun acc c => acc.add (DocstrCount.file c)) AggregatedCount.new

/-- `ResultCollection`: the dict `_files` maps a path to a `File` *instance*.
To make instance (reference) identity expressible, instances live in an arena
and the dict stores arena indices; Python's dict insertion order is kept by
using association lists in insertion order. -/
structure ResultCollection where
  arena : List File
  files : List (String × Nat)
deriving DecidableEq, Repr

/-- `ResultCollection()` constructor: `_files = dict()`. -/
def ResultCollection.new : ResultCollection :=
  { arena := [], files := [] }

/-- `ResultCollection.get_file(file_path)`: return the recorded `File` for the
path, or create a fresh `File()`, register it under the path and return it.
The returned `Nat` is the arena index of the returned instance. -/
def ResultCollection.get_file (rc : ResultCollection) (file_path : String) :
    Nat × ResultCollection :=
  match rc.files.lookup file_path with
  | some idx => (idx, rc)
  | none =>
      (rc.arena.length,
        { arena := rc.arena ++ [File.new],
          files := rc.files ++ [(file_path, rc.arena.length)] })

/-! ## coverage.py (legacy `get_docstring_coverage`) -/

/-- One node of the tree built by `coverage.py`'s `DocStringCoverageVisitor`:
`(node.name, has_doc, child_nodes)`. -/
inductive PyNode where
  | node (name : String) (has_doc : Bool) (child_nodes : List PyNode)

/-- `name[0] == name[0].upper()`; on an empty name Python's `name[0]` would
raise `IndexError`, but syntax-tree identifiers are never empty. -/
def firstCharEqUpper (s : String) : Bool :=
  match s.data with
  | [] => false
  | c :: _ => c == c.toUpper

mutual

/-- `print_docstring(base, node)` inside `get_docstring_coverage`: returns
`(docs_needed, docs_covered, _missing_list)` for the node and its children.
`docs_needed` starts at 1 and the three skip rules decrement it back to 0. -/
def print_docstring (skip_init skip_magic skip_class_def : Bool) (base : String) :
    PyNode → Nat × Nat × List String
  | PyNode.node name has_doc child_nodes =>
      let own : Nat × Nat × List String :=
        if !has_doc then
          if skip_init && name == "__init__" then
            (0, 0, [])
          else if skip_magic && name.startsWith "__" && name.endsWith "__"
              && name != "__init__" then
            (0, 0, [])
          else if skip_class_def && !(name.contains '_') && firstCharEqUpper name then
            (0, 0, [])
          else
            (1, 0, [base ++ name])
        else
          (1, 1, [])
      let childs := print_docstring_list skip_init skip_magic skip_class_def
        (name ++ ".") child_nodes
      (own.1 + childs.1, own.2.1 + childs.2.1, own.2.2 ++ childs.2.2)

/-- The `for _symbol in child_nodes` loop of `print_docstring`, summing the
three accumulators over the children. -/
def print_docstring_list (skip_init skip_magic skip_class_def : Bool) (base : String) :
    List PyNode → Nat × Nat × List String
  | [] => (0, 0, [])
  | n :: rest =>
      let r := print_docstring skip_init skip_magic skip_class_def base n
      let rs := print_docstring_list skip_init skip_magic skip_class_def base rest
      (r.1 + rs.1, r.2.1 + rs.2.1, r.2.2 ++ rs.2.2)

end

/-- The `_tree` triple produced for one file by `coverage.py`'s visitor:
`(module docstring present, module body empty, top-level symbols)`. -/
structure FileTree where
  module_has_doc : Bool
  is_empty : Bool
  symbols : List PyNode

/-- The per-file `(file_docs_needed, file_docs_covered, file_missing_list)` of
`get_docstring_coverage`'s main loop: both counters start at 1; a missing
module docstring (unless skipped) takes covered back to 0; an empty file
resets both to 0; then the symbol results are summed in. -/
def fileDocsCounts (skip_magic skip_file_docstring skip_init skip_class_def : Bool)
    (tree : FileTree) : Nat × Nat × List String :=
  let start : Nat × Nat :=
    if !tree.module_has_doc && !tree.is_empty && !skip_file_docstring then (1, 0)
    else if tree.is_empty then (0, 0)
    else (1, 1)
  let ch := print_docstring_list skip_init skip_magic skip_class_def "" tree.symbols
  (start.1 + ch.1, start.2 + ch.2.1, ch.2.2)

/-- One entry of the `file_results` dict of `get_docstring_coverage`. -/
structure LegacyFileResult where
  missing : List String
  module_doc : Bool
  missing_count : Nat
  needed_count : Nat
  coverage : ℚ
  empty : Bool
deriving DecidableEq, Repr

/-- The `file_results[filename]` entry: note the vacuous-coverage branch
`if file_docs_needed: ... else: coverage = 0` — a file with `needed == 0`
gets coverage `0`, not `100`. -/
def legacyFileResult (skip_magic skip_file_docstring skip_init skip_class_def : Bool)
    (tree : FileTree) : LegacyFileResult :=
  let r := fileDocsCounts skip_magic skip_file_docstring skip_init skip_class_def tree
  { missing := r.2.2,
    module_doc := tree.module_has_doc,
    missing_count := r.1 - r.2.1,
    needed_count := r.1,
    coverage := if r.1 ≠ 0 then (r.2.1 : ℚ) * 100 / (r.1 : ℚ) else 0,
    empty := tree.is_empty }

/-- The `total_results` dict of `get_docstring_coverage`: its `coverage` entry
divides by `total_docs_needed` unconditionally, so Python raises
`ZeroDivisionError` when the total needed count is 0 (modelled as `none`). -/
def legacyTotalResults (skip_magic skip_file_docstring skip_init skip_class_def : Bool)
    (trees : List FileTree) : Option (Nat × Nat × ℚ) :=
  let counts := trees.map
    (fileDocsCounts skip_magic skip_file_docstring skip_init skip_class_def)
  let total_docs_needed := (counts.map (·.1)).sum
  let total_docs_covered := (counts.map (·.2.1)).sum
  if total_docs_needed = 0 then none
  else some (total_docs_needed - total_docs_covered, total_docs_needed,
    (total_docs_covered : ℚ) * 100 / (total_docs_needed : ℚ))

/-! ## visitor.py -/

/-- Python's `\s` character class (`str` patterns without `re.UNICODE` quirks
restricted to ASCII input): space, tab, newline, carriage return, form feed,
vertical tab. -/
def isPySpace (c : Char) : Bool :=
  c == ' ' || c == '\t' || c == '\n' || c == '\r' || c == '\x0c' || c == '\x0b'

/-- The regex constructs occurring in `ACCEPTED_EXCUSE_PATTERNS`: literal
characters, an optional literal group `(s)?`, `\s*`, and `.*`. -/
inductive REItem where
  | litStr (s : String)
  | opt (s : String)
  | wsStar
  | dotStar

/-- `re.match` semantics for a sequence of `REItem`s: the pattern must match a
*prefix* of the text, so an exhausted pattern accepts whatever text remains.
The starred items try every possible number of consumed characters. -/
def matchItems : List REItem → List Char → Bool
  | [], _ => true
  | REItem.litStr s :: rest, cs =>
      s.data.isPrefixOf cs && matchItems rest (cs.drop s.data.length)
  | REItem.opt s :: rest, cs =>
      (s.data.isPrefixOf cs && matchItems rest (cs.drop s.data.length))
        || matchItems rest cs
  | REItem.wsStar :: rest, cs =>
      (List.range (cs.length + 1)).any fun k =>
        (cs.take k).all isPySpace && matchItems rest (cs.drop k)
  | REItem.dotStar :: rest, cs =>
      (List.range (cs.length + 1)).any fun k =>
        (cs.take k).all (fun c => !(c == '\n')) && matchItems rest (cs.drop k)

/-- `re.fullmatch` semantics for the same pattern language: as `matchItems`,
but an exhausted pattern only accepts exhausted text.  (This is the behaviour
the specification's words describe; the source uses `regex.match`.) -/
def fullMatchItems : List REItem → List Char → Bool
  | [], cs => cs.isEmpty
  | REItem.litStr s :: rest, cs =>
      s.data.isPrefixOf cs && fullMatchItems rest (cs.drop s.data.length)
  | REItem.opt s :: rest, cs =>
      (s.data.isPrefixOf cs && fullMatchItems rest (cs.drop s.data.length))
        || fullMatchItems rest cs
  | REItem.wsStar :: rest, cs =>
      (List.range (cs.length + 1)).any fun k =>
        (cs.take k).all isPySpace && fullMatchItems rest (cs.drop k)
  | REItem.dotStar :: rest, cs =>
      (List.range (cs.length + 1)).any fun k =>
        (cs.take k).all (fun c => !(c == '\n')) && fullMatchItems rest (cs.drop k)

/-- `r"#\s*docstr-coverage\s*:\s*inherit(ed)?\s*"` as `REItem`s. -/
def INHERIT_PATTERN : List REItem :=
  [REItem.litStr "#", REItem.wsStar, REItem.litStr "docstr-coverage",
   REItem.wsStar, REItem.litStr ":", REItem.wsStar, REItem.litStr "inherit",
   REItem.opt "ed", REItem.wsStar]

/-- ``r"#\s*docstr-coverage\s*:\s*excuse(d)?\s* `.*`\s*"`` as `REItem`s (note
the literal space before the opening backtick). -/
def EXCUSE_PATTERN : List REItem :=
  [REItem.litStr "#", REItem.wsStar, REItem.litStr "docstr-coverage",
   REItem.wsStar, REItem.litStr ":", REItem.wsStar, REItem.litStr "excuse",
   REItem.opt "d", REItem.wsStar, REItem.litStr " ", REItem.litStr "\x60",
   REItem.dotStar, REItem.litStr "\x60", REItem.wsStar]

/-- `ACCEPTED_EXCUSE_PATTERNS` from `visitor.py`. -/
def ACCEPTED_EXCUSE_PATTERNS : List (List REItem) :=
  [INHERIT_PATTERN, EXCUSE_PATTERN]

/-- The token kinds from `tokenize` that `visitor.py` inspects. -/
inductive TokenType where
  | COMMENT
  | NL
  | NEWLINE
  | NAME
  | OTHER
deriving DecidableEq, Repr

/-- A `tokenize` token: its type, its text, the line number where it starts
(`token.start[0]`, 1-based), and the full source line it sits on. -/
structure Token where
  typ : TokenType
  string : String
  startLine : Nat
  line : String
deriving DecidableEq, Repr

instance : Inhabited Token := ⟨{ typ := TokenType.OTHER, string := "", startLine := 0, line := "" }⟩

/-- Python's `str.strip()` (over the same whitespace set as `\s`). -/
def pyStrip (s : String) : String :=
  String.mk (((s.data.dropWhile isPySpace).reverse.dropWhile isPySpace).reverse)

/-- `DocStringCoverageVisitor._is_excuse_token(token)`: a `COMMENT` token whose
text is `regex.match`-ed by one of the two accepted patterns. -/
def is_excuse_token (t : Token) : Bool :=
  t.typ == TokenType.COMMENT
    && ACCEPTED_EXCUSE_PATTERNS.any (fun regex => matchItems regex t.string.data)

/-- `DocStringCoverageVisitor._is_skip_token(token)`: `NL`, `NEWLINE`, the
`class` keyword, or any token whose stripped line starts with a decorator. -/
def is_skip_token (t : Token) : Bool :=
  t.typ == TokenType.NL
    || t.typ == TokenType.NEWLINE
    || (t.typ == TokenType.NAME && t.string == "class")
    || (pyStrip t.line).startsWith "@"

/-- The `while token_index >= 0` loop of `_has_excuse`, entered at the given
index: skip tokens step the index down, the first non-skip token decides. -/
def scanUp (tokens : List Token) : Nat → Bool
  | 0 =>
      if is_skip_token (tokens.getD 0 default) then false
      else is_excuse_token (tokens.getD 0 default)
  | j + 1 =>
      if is_skip_token (tokens.getD (j + 1) default) then scanUp tokens j
      else is_excuse_token (tokens.getD (j + 1) default)

/-- `DocStringCoverageVisitor._has_excuse(node)`: find the first token whose
start line equals the node's line, set `token_index` to the index before it
(`-1` when that token is the very first, or when no token is found, in which
case the loop is skipped and the result is `False`), then run the upward scan. -/
def has_excuse (tokens : List Token) (node_start : Nat) : Bool :=
  match tokens.findIdx? (fun t => t.startLine == node_start) with
  | none => false
  | some 0 => false
  | some (i + 1) => scanUp tokens i

/-! ## ignore_config.py, and the ignore decision engine

`ignore_config.py` (the `IgnoreConfig` data class) is part of the sources; its
consumer — the modern `analyze` orchestrator and its per-node ignore-reason
decision, imported by `__init__.py`, `cli.py` and the test suite from
`docstr_coverage.coverage` — is not: the `coverage.py` present is the legacy
version that predates it.  Those missing parts are modelled from the
specification below. -/

/-- `IgnoreConfig` from `ignore_config.py`: the boolean toggles with their
constructor defaults, plus the `ignore_names` pattern-groups (each group is a
filename regex followed by node-name regexes). -/
structure IgnoreConfig where
  ignore_names : List (List String) := []
  skip_magic : Bool := false
  skip_file_docstring : Bool := false
  skip_init : Bool := false
  skip_class_def : Bool := false
  skip_private : Bool := false
  skip_property : Bool := false
  skip_setter : Bool := true
  skip_deleter : Bool := true

/-- Modelled from the spec: the `ignore_names` pattern-match algorithm of
§4.2 of the specification, whose implementation is missing from the sources.
`re_fullmatch pattern text` stands for the regex engine's full-string match.
A group matches when its first regex fully matches the file's base name and
some remaining regex fully matches the bare node name or the parent-prefixed
node name; groups are tried in order and any matching group qualifies. -/
def matchesIgnorePattern (re_fullmatch : String → String → Bool)
    (groups : List (List String)) (file_basename parentName name : String) : Bool :=
  groups.any fun group =>
    match group with
    | [] => false
    | file_regex :: name_regexes =>
        re_fullmatch file_regex file_basename
          && name_regexes.any fun nr =>
            re_fullmatch nr name || re_fullmatch nr (parentName ++ name)

/-- Modelled from the spec: the fixed-priority ignore-reason decision of §4.2
of the specification (its implementation, the modern `coverage.py`, is missing
from the sources).  Rules are evaluated in the listed order and the first
applicable one returns its reason string; `none` means a docstring is
required. -/
def ignoreReason (cfg : IgnoreConfig) (re_fullmatch : String → String → Bool)
    (file_basename parentName name : String) (decorator : Option String) :
    Option String :=
  if cfg.skip_init && name == "__init__" then
    some "skip-init set to True"
  else if cfg.skip_magic && name.startsWith "__" && name.endsWith "__"
      && name != "__init__" then
    some "skip-magic set to True"
  else if cfg.skip_class_def && !(name.contains '_') && firstCharEqUpper name then
    some "skip-class-def set to True"
  else if cfg.skip_private && name.startsWith "_" && !(name.startsWith "__") then
    some "skip-private set to True"
  else if matchesIgnorePattern re_fullmatch cfg.ignore_names
      file_basename parentName name then
    some "matching ignore pattern"
  else if cfg.skip_property && decorator == some "@property" then
    some "skip-property set to True"
  else if cfg.skip_setter && decorator == some "@setter" then
    some "skip-setter set to True"
  else if cfg.skip_deleter && decorator == some "@deleter" then
    some "skip-deleter set to True"
  else
    none

/-- The list, in the fixed priority order of §4.2 of the specification, of the
reasons of all the rules that apply to a node: the claim under scrutiny says
the reported reason is always the first entry of this list. -/
def applicableReasons (cfg : IgnoreConfig) (re_fullmatch : String → String → Bool)
    (file_basename parentName name : String) (decorator : Option String) :
    List String :=
  (if cfg.skip_init && name == "__init__" then
    ["skip-init set to True"] else [])
  ++ (if cfg.skip_magic && name.startsWith "__" && name.endsWith "__"
      && name != "__init__" then
    ["skip-magic set to True"] else [])
  ++ (if cfg.skip_class_def && !(name.contains '_') && firstCharEqUpper name then
    ["skip-class-def set to True"] else [])
  ++ (if cfg.skip_private && name.startsWith "_" && !(name.startsWith "__") then
    ["skip-private set to True"] else [])
  ++ (if matchesIgnorePattern re_fullmatch cfg.ignore_names
      file_basename parentName name then
    ["matching ignore pattern"] else [])
  ++ (if cfg.skip_property && decorator == some "@property" then
    ["skip-property set to True"] else [])
  ++ (if cfg.skip_setter && decorator == some "@setter" then
    ["skip-setter set to True"] else [])
  ++ (if cfg.skip_deleter && decorator == some "@deleter" then
    ["skip-deleter set to True"] else [])

/-! ## The orchestrator's per-file use of `File` -/

/-- The operations the `File` interface offers to the orchestrator. -/
inductive FileOp where
  | set (status : FileStatus)
  | collect (identifier : String) (has_docstring : Bool) (ignore_reason : Option String)

/-- Running one `FileOp` against a `File`. -/
def applyFileOp (f : File) : FileOp → File
  | FileOp.set s => f.setStatus s
  | FileOp.collect i h ir => f.collect_docstring i h ir

/-- Modelled from the spec: the per-file behaviour of the `analyze`
orchestrator (missing from the sources), as §4.3 of the specification fixes
it — for a file whose top-level body is empty the orchestrator sets the status
to `EMPTY` instead of reporting anything; otherwise it reports the module
record followed by the per-node records and never touches the status. -/
def orchestratorFileOps (module_is_empty : Bool)
    (records : List (String × Bool × Option String)) : List FileOp :=
  if module_is_empty then [FileOp.set FileStatus.EMPTY]
  else records.map fun r => FileOp.collect r.1 r.2.1 r.2.2

/-! ## Auxiliary definitions used only in statements -/

/-- The three mutating counter calls offered by `FileCount`. -/
inductive FileCountOp where
  | found_needed
  | missed_needed
  | found_empty
deriving DecidableEq, Repr

/-- Running one `FileCountOp` against a `FileCount`. -/
def applyFileCountOp (c : FileCount) : FileCountOp → FileCount
  | FileCountOp.found_needed => c.found_needed_docstr
  | FileCountOp.missed_needed => c.missed_needed_docstring
  | FileCountOp.found_empty => c.found_empty_file

/-- The specification's description of the upward excuse scan, read over the
tokens above the node in bottom-up order: skip the skippable tokens, then the
first remaining token alone decides (an excuse comment yields `true`, anything
else `false`), and running out of tokens (the top of the file) yields
`false`. -/
def firstNonSkipDecision (l : List Token) : Bool :=
  match (l.dropWhile is_skip_token).head? with
  | none => false
  | some t => is_excuse_token t

/-! ## Theorems -/

lemma foldl_addFile (a : AggregatedCount) (l : List FileCount) :
    l.foldl (fun acc c => acc.add (DocstrCount.file c)) a =
      { num_files := a.num_files + l.length,
        num_empty_files := a.num_empty_files + l.countP (fun c => c.is_empty),
        needed := a.needed + (l.map FileCount.needed).sum,
        found := a.found + (l.map FileCount.found).sum,
        missing := a.missing + (l.map FileCount.missing).sum } := by
  induction l generalizing a with
  | nil => simp
  | cons c t ih =>
      rw [List.foldl_cons, ih]
      cases hc : c.is_empty <;>
        simp [AggregatedCount.add, hc, AggregatedCount.mk.injEq, List.countP_cons] <;>
        omega

/-- C3: `AggregatedCount` addition is associative and commutative — for any
three `AggregatedCount`s, `(A+B)+C = A+(B+C)` and `A+B = B+A`, where the
field-by-field `__eq__` comparison coincides with equality of the five-field
records — and consequently reducing any permutation of the same per-file
`FileCount`s yields the identical aggregate. -/
theorem aggregated_add_assoc_comm :
    (∀ a b c : AggregatedCount,
      (a.add (DocstrCount.agg b)).add (DocstrCount.agg c)
        = a.add (DocstrCount.agg (b.add (DocstrCount.agg c))))
    ∧ (∀ a b : AggregatedCount,
      a.add (DocstrCount.agg b) = b.add (DocstrCount.agg a))
    ∧ (∀ a b : AggregatedCount, a.eqFields b = true ↔ a = b)
    ∧ (∀ l1 l2 : List FileCount, l1.Perm l2 →
      reduceFileCounts l1 = reduceFileCounts l2) := by
  refine ⟨?_, ?_, ?_, ?_⟩
  · intro a b c
    simp [AggregatedCount.add, AggregatedCount.mk.injEq]
    omega
  · intro a b
    simp [AggregatedCount.add, AggregatedCount.mk.injEq]
    omega
  · intro a b
    cases a; cases b
    simp [AggregatedCount.eqFields, AggregatedCount.mk.injEq]
    tauto
  · intro l1 l2 hp
    unfold reduceFileCounts
    rw [foldl_addFile, foldl_addFile, hp.length_eq, hp.countP_eq,
      (hp.map FileCount.needed).sum_eq, (hp.map FileCount.found).sum_eq,
      (hp.map FileCount.missing).sum_eq]

/-- Witness for C3: the two orderings of two concrete per-file counts reduce
to the identical aggregate. -/
theorem aggregated_add_assoc_comm_witness :
    reduceFileCounts
        [FileCount.new.found_needed_docstr, FileCount.new.missed_needed_docstring]
      = reduceFileCounts
        [FileCount.new.missed_needed_docstring, FileCount.new.found_needed_docstr] :=
  aggregated_add_assoc_comm.2.2.2 _ _ (by decide)

lemma applyFileCountOp_preserves (c : FileCount) (op : FileCountOp)
    (h : c.needed = c.found + c.missing) :
    (applyFileCountOp c op).needed = (applyFileCountOp c op).found + (applyFileCountOp c op).missing := by
  cases op with
  | found_needed =>
      simp [applyFileCountOp, FileCount.found_needed_docstr]
      omega
  | missed_needed =>
      simp [applyFileCountOp, FileCount.missed_needed_docstring]
      omega
  | found_empty =>
      simpa [applyFileCountOp, FileCount.found_empty_file] using h

lemma foldl_applyFileCountOp_inv (ops : List FileCountOp) (c : FileCount)
    (h : c.needed = c.found + c.missing) :
    (ops.foldl applyFileCountOp c).needed
      = (ops.foldl applyFileCountOp c).found + (ops.foldl applyFileCountOp c).missing := by
  induction ops generalizing c with
  | nil => exact h
  | cons op t ih => exact ih _ (applyFileCountOp_preserves c op h)

lemma countStep_preserves (c : FileCount) (e : ExpectedDocstring)
    (h : c.needed = c.found + c.missing) :
    (countStep c e).needed = (countStep c e).found + (countStep c e).missing := by
  unfold countStep
  split_ifs with h1 h2
  · exact h
  · simp [FileCount.found_needed_docstr]
    omega
  · simp [FileCount.missed_needed_docstring]
    omega

lemma foldl_countStep_inv (l : List ExpectedDocstring) (c : FileCount)
    (h : c.needed = c.found + c.missing) :
    (l.foldl countStep c).needed
      = (l.foldl countStep c).found + (l.foldl countStep c).missing := by
  induction l generalizing c with
  | nil => exact h
  | cons e t ih => exact ih _ (countStep_preserves c e h)

/-- C10: every `FileCount` reachable from a fresh counter through any sequence
of `found_needed_docstr`/`missed_needed_docstring`/`found_empty_file` calls —
and hence every `File.count_aggregate()` result — satisfies
`needed = found + missing`; `AggregatedCount.__add__` preserves the equation
for both operand kinds; and any count satisfying it has `found ≤ needed` and a
coverage between 0 and 100. -/
theorem count_invariant_needed_eq_found_add_missing :
    (∀ ops : List FileCountOp,
      (ops.foldl applyFileCountOp FileCount.new).needed
        = (ops.foldl applyFileCountOp FileCount.new).found
          + (ops.foldl applyFileCountOp FileCount.new).missing)
    ∧ (∀ f : File,
      f.count_aggregate.needed = f.count_aggregate.found + f.count_aggregate.missing)
    ∧ (∀ (a b : AggregatedCount),
      a.needed = a.found + a.missing → b.needed = b.found + b.missing →
        (a.add (DocstrCount.agg b)).needed
          = (a.add (DocstrCount.agg b)).found + (a.add (DocstrCount.agg b)).missing)
    ∧ (∀ (a : AggregatedCount) (c : FileCount),
      a.needed = a.found + a.missing → c.needed = c.found + c.missing →
        (a.add (DocstrCount.file c)).needed
          = (a.add (DocstrCount.file c)).found + (a.add (DocstrCount.file c)).missing)
    ∧ (∀ found needed : Nat, found ≤ needed →
        0 ≤ docstrCoverage found needed ∧ docstrCoverage found needed ≤ 100)
    ∧ (∀ c : FileCount, c.needed = c.found + c.missing → c.found ≤ c.needed) := by
  refine ⟨?_, ?_, ?_, ?_, ?_, ?_⟩
  · intro ops
    exact foldl_applyFileCountOp_inv ops FileCount.new rfl
  · intro f
    unfold File.count_aggregate
    split
    · simp [FileCount.new, FileCount.found_empty_file]
    · exact foldl_countStep_inv _ FileCount.new rfl
  · intro a b ha hb
    simp [AggregatedCount.add]
    omega
  · intro a c ha hc
    simp [AggregatedCount.add]
    omega
  · intro found needed h
    unfold docstrCoverage
    split_ifs with hz
    · norm_num
    · have hpos : (0 : ℚ) < (needed : ℚ) := by
        exact_mod_cast Nat.pos_of_ne_zero hz
      constructor
      · positivity
      · rw [div_le_iff₀ hpos]
        have hf : (found : ℚ) ≤ (needed : ℚ) := by exact_mod_cast h
        nlinarith
  · intro c h
    omega

/-- Witness for C10: the invariant, the preservation steps and the coverage
bounds hold at concrete counts. -/
theorem count_invariant_needed_eq_found_add_missing_witness :
    (([FileCountOp.found_needed, FileCountOp.missed_needed].foldl
        applyFileCountOp FileCount.new).needed
      = ([FileCountOp.found_needed, FileCountOp.missed_needed].foldl
          applyFileCountOp FileCount.new).found
        + ([FileCountOp.found_needed, FileCountOp.missed_needed].foldl
            applyFileCountOp FileCount.new).missing)
    ∧ 0 ≤ docstrCoverage 1 2 ∧ docstrCoverage 1 2 ≤ 100
    ∧ ((AggregatedCount.new.add
        (DocstrCount.file (FileCount.new.found_needed_docstr))).needed
      = (AggregatedCount.new.add
          (DocstrCount.file (FileCount.new.found_needed_docstr))).found
        + (AggregatedCount.new.add
            (DocstrCount.file (FileCount.new.found_needed_docstr))).missing) :=
  ⟨count_invariant_needed_eq_found_add_missing.1 _,
   (count_invariant_needed_eq_found_add_missing.2.2.2.2.1 1 2 (by decide)).1,
   (count_invariant_needed_eq_found_add_missing.2.2.2.2.1 1 2 (by decide)).2,
   count_invariant_needed_eq_found_add_missing.2.2.2.1 AggregatedCount.new
     FileCount.new.found_needed_docstr rfl rfl⟩

lemma foldl_countStep_eq (l : List ExpectedDocstring) (c : FileCount) :
    l.foldl countStep c =
      { needed := c.needed + l.countP (fun e => !optStrTruthy e.ignore_reason),
        found := c.found
          + l.countP (fun e => !optStrTruthy e.ignore_reason && e.has_docstring),
        missing := c.missing
          + l.countP (fun e => !optStrTruthy e.ignore_reason && !e.has_docstring),
        is_empty := c.is_empty } := by
  induction l generalizing c with
  | nil => simp
  | cons e t ih =>
      rw [List.foldl_cons, ih]
      unfold countStep
      cases hi : optStrTruthy e.ignore_reason <;> cases hd : e.has_docstring <;>
        simp [FileCount.found_needed_docstr, FileCount.missed_needed_docstring,
          FileCount.mk.injEq, List.countP_cons, hi, hd] <;>
        omega

/-- C2 (counterexample): a record whose `ignore_reason` is the empty string —
which is not `None` — is *not* excluded from `needed`: `File.count_aggregate`
tests Python truthiness, and `""` is falsy, so the record below is counted as
a needed, missing docstring, where the claim demands `needed = 0`. -/
theorem count_aggregate_empty_string_reason_counterexample :
    (File.count_aggregate
        { expected_docstrings :=
            [{ node_identifier := "x", has_docstring := false, ignore_reason := some "" }],
          status := FileStatus.ANALYZED }).needed = 1
    ∧ (File.count_aggregate
        { expected_docstrings :=
            [{ node_identifier := "x", has_docstring := false, ignore_reason := some "" }],
          status := FileStatus.ANALYZED }).missing = 1
    ∧ (some "" : Option String) ≠ none := by
  refine ⟨by decide, by decide, by simp⟩

/-- C2 (amended): `File.count_aggregate` classifies as the claim says for the
`EMPTY` status and for records with `None` or non-empty `ignore_reason`s, but
the exclusion criterion is Python truthiness, not "non-`None`": exactly the
records with a *falsy* `ignore_reason` (`None` or the empty string) count
toward `needed`, and a record with `ignore_reason = ""` is counted like an
unexempted one rather than excluded. -/
theorem count_aggregate_characterization (f : File) :
    f.count_aggregate =
      if f.status = FileStatus.EMPTY then
        { needed := 0, found := 0, missing := 0, is_empty := true }
      else
        { needed := f.expected_docstrings.countP (fun e => !optStrTruthy e.ignore_reason),
          found := f.expected_docstrings.countP
            (fun e => !optStrTruthy e.ignore_reason && e.has_docstring),
          missing := f.expected_docstrings.countP
            (fun e => !optStrTruthy e.ignore_reason && !e.has_docstring),
          is_empty := false } := by
  unfold File.count_aggregate
  split
  · rfl
  · rw [foldl_countStep_eq]
    simp [FileCount.new]

/-- C1 (counterexample): for a single empty file (`needed == 0`),
`get_docstring_coverage` reports a per-file coverage of `0`, not `100.0`, and
its total-coverage expression divides by the zero total needed count — in
Python a `ZeroDivisionError` (modelled as `none`). -/
theorem legacy_vacuous_coverage_counterexample :
    (legacyFileResult false false false false
        { module_has_doc := false, is_empty := true, symbols := [] }).needed_count = 0
    ∧ (legacyFileResult false false false false
        { module_has_doc := false, is_empty := true, symbols := [] }).coverage = 0
    ∧ (legacyFileResult false false false false
        { module_has_doc := false, is_empty := true, symbols := [] }).coverage ≠ 100
    ∧ legacyTotalResults false false false false
        [{ module_has_doc := false, is_empty := true, symbols := [] }] = none := by
  refine ⟨rfl, ?_, ?_, rfl⟩
  · simp [legacyFileResult, fileDocsCounts, print_docstring_list]
  · simp [legacyFileResult, fileDocsCounts, print_docstring_list]

/-- C1 (amended): `_DocstrCount.coverage()` — the computation behind
`FileCount`, `AggregatedCount` and `to_legacy` — returns `found*100/needed`
when `needed > 0` and exactly `100.0` when `needed == 0`, never raising and
never returning `0.0` for `needed == 0`; `get_docstring_coverage`, however,
reports coverage `0` for any file whose needed count is 0 and raises
`ZeroDivisionError` for the total exactly when the total needed count is 0. -/
theorem coverage_vacuous_amended :
    (∀ found needed : Nat, needed = 0 → docstrCoverage found needed = 100)
    ∧ (∀ found needed : Nat, needed ≠ 0 →
        docstrCoverage found needed = (found : ℚ) * 100 / (needed : ℚ))
    ∧ (∀ sm sf si sc : Bool, ∀ tree : FileTree,
        (legacyFileResult sm sf si sc tree).needed_count = 0 →
          (legacyFileResult sm sf si sc tree).coverage = 0)
    ∧ (∀ sm sf si sc : Bool, ∀ trees : List FileTree,
        legacyTotalResults sm sf si sc trees = none ↔
          ((trees.map (fileDocsCounts sm sf si sc)).map (·.1)).sum = 0) := by
  refine ⟨?_, ?_, ?_, ?_⟩
  · intro found needed h
    simp [docstrCoverage, h]
  · intro found needed h
    simp [docstrCoverage, h]
  · intro sm sf si sc tree h
    simp only [legacyFileResult] at h ⊢
    simp [h]
  · intro sm sf si sc trees
    by_cases h : ((trees.map (fileDocsCounts sm sf si sc)).map (·.1)).sum = 0
    · simp [legacyTotalResults, h]
    · simp [legacyTotalResults, h]

/-- Witness for C1 (amended): the vacuous case, the positive case, a
zero-needed file and a zero-needed run evaluated concretely. -/
theorem coverage_vacuous_amended_witness :
    docstrCoverage 0 0 = 100
    ∧ docstrCoverage 1 2 = (1 : ℚ) * 100 / (2 : ℚ)
    ∧ (legacyFileResult false false false false
        { module_has_doc := false, is_empty := true, symbols := [] }).coverage = 0
    ∧ (legacyTotalResults false false false false
        [{ module_has_doc := false, is_empty := true, symbols := [] }] = none ↔
        (([{ module_has_doc := false, is_empty := true, symbols := [] }].map
          (fileDocsCounts false false false false)).map (·.1)).sum = 0) :=
  ⟨coverage_vacuous_amended.1 0 0 rfl,
   coverage_vacuous_amended.2.1 1 2 (by decide),
   coverage_vacuous_amended.2.2.1 false false false false _ rfl,
   coverage_vacuous_amended.2.2.2 false false false false _⟩

lemma foldl_collect_status (rs : List (String × Bool × Option String)) (f : File) :
    ((rs.map fun r => FileOp.collect r.1 r.2.1 r.2.2).foldl applyFileOp f).status
      = f.status := by
  induction rs generalizing f with
  | nil => rfl
  | cons r t ih =>
      rw [List.map_cons, List.foldl_cons]
      exact ih _

/-- C9 (counterexample): the `File.status` setter is a plain, unguarded
assignment, so a `File` that is in the `EMPTY` state can be moved back to
`ANALYZED` through the `File` interface — `EMPTY` is not terminal at the
interface level, contradicting the claim that no such transition can occur. -/
theorem file_status_setter_unguarded_counterexample :
    (File.new.setStatus FileStatus.EMPTY).status = FileStatus.EMPTY
    ∧ ((File.new.setStatus FileStatus.EMPTY).setStatus FileStatus.ANALYZED).status
      = FileStatus.ANALYZED := by
  exact ⟨rfl, rfl⟩

/-- C9 (amended): every `File` starts as `ANALYZED`, and in the traces the
orchestrator (modelled from the spec, its implementation being absent from
the sources) drives through the `File` interface the only transition taken is
a single assignment to `EMPTY`, performed instead of — hence before — any
record collection, after which nothing further happens to the file; for
non-empty files the status is never assigned at all.  The interface itself,
however, does not enforce terminality (see the counterexample). -/
theorem file_status_state_machine_amended :
    File.new.status = FileStatus.ANALYZED
    ∧ ∀ (module_is_empty : Bool) (records : List (String × Bool × Option String)),
        (module_is_empty = true
          ∧ orchestratorFileOps module_is_empty records = [FileOp.set FileStatus.EMPTY]
          ∧ ((orchestratorFileOps module_is_empty records).foldl applyFileOp File.new).status
            = FileStatus.EMPTY
          ∧ ((orchestratorFileOps module_is_empty records).foldl applyFileOp File.new).expected_docstrings
            = [])
        ∨ (module_is_empty = false
          ∧ (∀ op ∈ orchestratorFileOps module_is_empty records,
              ∃ i h ir, op = FileOp.collect i h ir)
          ∧ ((orchestratorFileOps module_is_empty records).foldl applyFileOp File.new).status
            = FileStatus.ANALYZED) := by
  refine ⟨rfl, ?_⟩
  intro e records
  cases e with
  | true =>
      left
      refine ⟨rfl, rfl, rfl, rfl⟩
  | false =>
      right
      refine ⟨rfl, ?_, ?_⟩
      · intro op hop
        simp only [orchestratorFileOps, Bool.false_eq_true, if_false, List.mem_map]
          at hop
        obtain ⟨r, _, hr⟩ := hop
        exact ⟨r.1, r.2.1, r.2.2, hr.symm⟩
      · simpa [orchestratorFileOps] using
          foldl_collect_status records File.new

/-- C4: the ignore decision (modelled from §4.2 of the specification, its
implementation being absent from the sources) evaluates the exemption rules in
the fixed priority order — `skip_init`, then `skip_magic`, then
`skip_class_def`, then `skip_private`, then `ignore_names`, then the
decorator-based skips — and short-circuits at the first applicable rule:
whatever the configuration, the reported reason is exactly the head of the
priority-ordered list of all applicable rules, so exactly one reason, the
earliest, is deterministically reported. -/
theorem ignore_priority_first_applicable :
    ∀ (cfg : IgnoreConfig) (rf : String → String → Bool)
      (file_basename parentName name : String) (decorator : Option String),
      ignoreReason cfg rf file_basename parentName name decorator
        = (applicableReasons cfg rf file_basename parentName name decorator).head? := by
  intro cfg rf base pn name dec
  unfold ignoreReason applicableReasons
  split_ifs <;> simp

lemma optStrTruthy_ignoreReason (cfg : IgnoreConfig) (rf : String → String → Bool)
    (file_basename parentName name : String) (decorator : Option String) :
    optStrTruthy (ignoreReason cfg rf file_basename parentName name decorator)
      = (ignoreReason cfg rf file_basename parentName name decorator).isSome := by
  unfold ignoreReason
  split_ifs <;> rfl

lemma count_aggregate_append_ignored (f : File) (identifier : String) (h : Bool)
    (r : Option String) (hr : optStrTruthy r = true) :
    (f.collect_docstring identifier h r).count_aggregate = f.count_aggregate := by
  unfold File.count_aggregate
  simp only [File.collect_docstring]
  split
  · rfl
  · rw [List.foldl_append]
    simp [countStep, hr]

/-- C5: the exemption decision (modelled from §4.2 of the specification, its
implementation being absent from the sources) takes only the file, the names,
the decorator classification and the `IgnoreConfig` — never the docstring
presence — so two analyses of the same node differing only in
`has_docstring` carry the same reason, and whenever a reason applies, the
collected record changes the (real) `File.count_aggregate` in no way at all:
a documented node matched by a skip rule is excluded from `needed` exactly
like an undocumented one. -/
theorem ignore_decision_independent_of_docstring :
    ∀ (cfg : IgnoreConfig) (rf : String → String → Bool)
      (file_basename parentName name : String) (decorator : Option String)
      (identifier : String) (h1 h2 : Bool) (f : File),
      ignoreReason cfg rf file_basename parentName name decorator ≠ none →
        (f.collect_docstring identifier h1
            (ignoreReason cfg rf file_basename parentName name decorator)).count_aggregate
          = (f.collect_docstring identifier h2
              (ignoreReason cfg rf file_basename parentName name decorator)).count_aggregate
        ∧ (f.collect_docstring identifier h1
            (ignoreReason cfg rf file_basename parentName name decorator)).count_aggregate
          = f.count_aggregate := by
  intro cfg rf base pn name dec identifier h1 h2 f hne
  have ht : optStrTruthy (ignoreReason cfg rf base pn name dec) = true := by
    rw [optStrTruthy_ignoreReason]
    exact Option.isSome_iff_ne_none.mpr hne
  refine ⟨?_, count_aggregate_append_ignored f identifier h1 _ ht⟩
  rw [count_aggregate_append_ignored f identifier h1 _ ht,
    count_aggregate_append_ignored f identifier h2 _ ht]

/-- Witness for C5: a documented and an undocumented `__init__` under
`skip_init=True` leave the aggregate of a fresh file identically untouched. -/
theorem ignore_decision_independent_of_docstring_witness :
    (File.new.collect_docstring "__init__" true
        (ignoreReason { skip_init := true } (fun _ _ => false) "m" "" "__init__"
          none)).count_aggregate
      = (File.new.collect_docstring "__init__" false
          (ignoreReason { skip_init := true } (fun _ _ => false) "m" "" "__init__"
            none)).count_aggregate
    ∧ (File.new.collect_docstring "__init__" true
        (ignoreReason { skip_init := true } (fun _ _ => false) "m" "" "__init__"
          none)).count_aggregate
      = File.new.count_aggregate :=
  ignore_decision_independent_of_docstring { skip_init := true } (fun _ _ => false)
    "m" "" "__init__" none "__init__" true false File.new (by decide)

lemma getD_eq_get (tokens : List Token) (j : Nat) (hj : j < tokens.length) :
    tokens.getD j default = tokens.get ⟨j, hj⟩ := by
  simp [List.getD_eq_getElem?_getD, List.getElem?_eq_getElem hj]

lemma scanUp_eq (tokens : List Token) (j : Nat) (hj : j < tokens.length) :
    scanUp tokens j = firstNonSkipDecision ((tokens.take (j + 1)).reverse) := by
  induction j with
  | zero =>
      cases tokens with
      | nil => exact absurd hj (by simp)
      | cons t ts =>
          cases hs : is_skip_token t <;>
            simp [scanUp, firstNonSkipDecision, List.dropWhile, hs, List.take_succ]
  | succ j ih =>
      have hj1 : j < tokens.length := Nat.lt_of_succ_lt hj
      have htake : tokens.take (j + 2) = tokens.take (j + 1) ++ [tokens.get ⟨j + 1, hj⟩] := by
        rw [List.take_succ]
        simp [List.getElem?_eq_getElem hj]
      rw [htake, List.reverse_append, List.reverse_singleton, List.singleton_append]
      have hsu : scanUp tokens (j + 1)
          = if is_skip_token (tokens.get ⟨j + 1, hj⟩) then scanUp tokens j
            else is_excuse_token (tokens.get ⟨j + 1, hj⟩) := by
        rw [scanUp, getD_eq_get tokens (j + 1) hj]
      rw [hsu]
      cases hs : is_skip_token (tokens.get ⟨j + 1, hj⟩) with
      | false =>
          have hs2 : is_skip_token tokens[j + 1] = false := hs
          rw [if_neg (by simp [hs])]
          simp [firstNonSkipDecision, List.dropWhile, hs2, List.get_eq_getElem]
      | true =>
          have hs2 : is_skip_token tokens[j + 1] = true := hs
          rw [ih hj1]
          simp [firstNonSkipDecision, List.dropWhile, hs2, List.get_eq_getElem]

/-- C7: `_has_excuse` equals its specification — locate the first token that
starts at the node's line (none found yields `false`), then read the tokens
strictly above it bottom-up, skip the skippable ones (newline/blank tokens,
the `class` keyword, decorator-application lines), and let the first
non-skippable token alone decide: an excuse comment yields `true`, anything
else `false`, and exhausting the tokens (the top of the file) yields
`false`. -/
theorem has_excuse_characterization (tokens : List Token) (node_start : Nat) :
    has_excuse tokens node_start =
      match tokens.findIdx? (fun t => t.startLine == node_start) with
      | none => false
      | some i => firstNonSkipDecision ((tokens.take i).reverse) := by
  unfold has_excuse
  rcases h : tokens.findIdx? (fun t => t.startLine == node_start) with _ | i
  · rw [h]
  · rw [h]
    cases i with
    | zero => simp [firstNonSkipDecision]
    | succ j =>
        obtain ⟨hlt, -, -⟩ := List.findIdx?_eq_some_iff_getElem.mp h
        exact scanUp_eq tokens j (Nat.lt_of_succ_lt hlt)

lemma isPrefixOf_take_iff (s cs : List Char) (n : Nat) :
    s.isPrefixOf (cs.take n) = true ↔ (s.isPrefixOf cs = true ∧ s.length ≤ n) := by
  simp [List.isPrefixOf_iff_prefix, List.prefix_take_iff]

lemma litStep_iff (s : List Char) (mRest fRest : List Char → Bool)
    (IH : ∀ cs, mRest cs = true ↔ ∃ n, fRest (cs.take n) = true) (cs : List Char) :
    (s.isPrefixOf cs = true ∧ mRest (cs.drop s.length) = true)
      ↔ ∃ n, (s.isPrefixOf (cs.take n) = true
          ∧ fRest ((cs.take n).drop s.length) = true) := by
  constructor
  · rintro ⟨hp, hm⟩
    obtain ⟨m, hf⟩ := (IH _).mp hm
    refine ⟨s.length + m, ?_, ?_⟩
    · rw [isPrefixOf_take_iff]
      exact ⟨hp, Nat.le_add_right _ _⟩
    · rw [List.drop_take]
      simpa [Nat.add_sub_cancel_left] using hf
  · rintro ⟨n, hp, hf⟩
    rw [isPrefixOf_take_iff] at hp
    refine ⟨hp.1, (IH _).mpr ⟨n - s.length, ?_⟩⟩
    rw [← List.drop_take]
    exact hf

lemma starStep_iff (p : Char → Bool) (mRest fRest : List Char → Bool)
    (IH : ∀ cs, mRest cs = true ↔ ∃ n, fRest (cs.take n) = true) (cs : List Char) :
    ((List.range (cs.length + 1)).any fun k =>
        (cs.take k).all p && mRest (cs.drop k)) = true
      ↔ ∃ n, ((List.range ((cs.take n).length + 1)).any fun k =>
          ((cs.take n).take k).all p && fRest ((cs.take n).drop k)) = true := by
  simp only [List.any_eq_true, List.mem_range, Nat.lt_succ_iff, Bool.and_eq_true]
  constructor
  · rintro ⟨k, hk, hall, hm⟩
    obtain ⟨m, hf⟩ := (IH _).mp hm
    refine ⟨k + m, k, ?_, ?_, ?_⟩
    · simp only [List.length_take]
      omega
    · rw [List.take_take]
      have hmin : min k (k + m) = k := by omega
      rw [hmin]
      exact hall
    · rw [List.drop_take]
      have hsub : k + m - k = m := by omega
      rw [hsub]
      exact hf
  · rintro ⟨n, k, hk, hall, hf⟩
    simp only [List.length_take] at hk
    refine ⟨k, by omega, ?_, ?_⟩
    · rw [List.take_take] at hall
      have hmin : min k n = k := by omega
      rwa [hmin] at hall
    · apply (IH _).mpr
      refine ⟨n - k, ?_⟩
      rw [← List.drop_take]
      exact hf

lemma matchItems_iff_fullMatch_take (items : List REItem) :
    ∀ cs : List Char,
      matchItems items cs = true ↔ ∃ n, fullMatchItems items (cs.take n) = true := by
  induction items with
  | nil =>
      intro cs
      constructor
      · intro _
        exact ⟨0, rfl⟩
      · intro _
        rfl
  | cons item rest ih =>
      intro cs
      cases item with
      | litStr s =>
          simp only [matchItems, fullMatchItems, Bool.and_eq_true]
          exact litStep_iff s.data (matchItems rest) (fullMatchItems rest) ih cs
      | opt s =>
          simp only [matchItems, fullMatchItems, Bool.and_eq_true, Bool.or_eq_true]
          rw [exists_or]
          exact or_congr (litStep_iff s.data (matchItems rest) (fullMatchItems rest) ih cs)
            (ih cs)
      | wsStar =>
          simp only [matchItems, fullMatchItems]
          exact starStep_iff isPySpace (matchItems rest) (fullMatchItems rest) ih cs
      | dotStar =>
          simp only [matchItems, fullMatchItems]
          exact starStep_iff (fun c => !(c == '\n')) (matchItems rest)
            (fullMatchItems rest) ih cs

/-- C6 (counterexample): `_is_excuse_token` uses `regex.match`, which anchors
only at the start, so this comment — whose text carries free trailing words
after the inherit form and is fully matched by neither accepted pattern — is
nonetheless accepted as an excuse, where the claim says a comment with extra
trailing text beyond the pattern is not one. -/
theorem excuse_trailing_text_counterexample :
    is_excuse_token
      { typ := TokenType.COMMENT,
        string := "# docstr-coverage: inherit because the parent documents it",
        startLine := 3, line := "" } = true
    ∧ (ACCEPTED_EXCUSE_PATTERNS.any fun regex =>
        fullMatchItems regex
          "# docstr-coverage: inherit because the parent documents it".data) = false := by
  exact ⟨by decide, by decide⟩

/-- C6 (amended): a comment token is accepted as an excuse if and only if it
is a `COMMENT` token and one of the two accepted patterns fully matches some
*prefix* of its text (`re.match` semantics): extra trailing text beyond the
matched pattern does not prevent acceptance. -/
theorem is_excuse_token_prefix_semantics (t : Token) :
    is_excuse_token t = true ↔
      (t.typ = TokenType.COMMENT
        ∧ ∃ regex ∈ ACCEPTED_EXCUSE_PATTERNS, ∃ n,
            fullMatchItems regex (t.string.data.take n) = true) := by
  unfold is_excuse_token
  simp only [Bool.and_eq_true, beq_iff_eq, List.any_eq_true]
  constructor
  · rintro ⟨ht, r, hr, hm⟩
    exact ⟨ht, r, hr, (matchItems_iff_fullMatch_take r _).mp hm⟩
  · rintro ⟨ht, r, hr, n, hf⟩
    exact ⟨ht, r, hr, (matchItems_iff_fullMatch_take r _).mpr ⟨n, hf⟩⟩

lemma lookup_append_of_none {α β : Type} [BEq α] (k : α) (l1 l2 : List (α × β))
    (h : List.lookup k l1 = none) : List.lookup k (l1 ++ l2) = List.lookup k l2 := by
  induction l1 with
  | nil => simp
  | cons a t ih =>
      rcases a with ⟨a1, a2⟩
      by_cases hk : (k == a1) = true
      · simp [List.lookup, hk] at h
      · simp only [List.lookup, hk, List.cons_append] at h ⊢
        exact ih h

lemma countP_eq_zero_of_lookup_none {α β : Type} [BEq α] [LawfulBEq α] (k : α)
    (l : List (α × β)) (h : List.lookup k l = none) :
    l.countP (fun kv => kv.1 == k) = 0 := by
  induction l with
  | nil => simp
  | cons a t ih =>
      rcases a with ⟨a1, a2⟩
      by_cases hk : k = a1
      · simp [List.lookup, hk] at h
      · have hbk : (k == a1) = false := beq_eq_false_iff_ne.mpr hk
        have ha : (a1 == k) = false := beq_eq_false_iff_ne.mpr (Ne.symm hk)
        simp only [List.lookup, hbk] at h
        simp [List.countP_cons, ha, ih h]

/-- C8: `ResultCollection.get_file` is idempotent — the second call with the
same path returns the very same `File` instance (the same arena index) and
leaves the collection untouched — the returned instance is registered under
the path, and when at most one instance was registered per path before the
call, the same holds after it. -/
theorem get_file_idempotent :
    (∀ (rc : ResultCollection) (p : String),
      (rc.get_file p).2.get_file p = ((rc.get_file p).1, (rc.get_file p).2))
    ∧ (∀ (rc : ResultCollection) (p : String),
      (rc.get_file p).2.files.lookup p = some (rc.get_file p).1)
    ∧ (∀ (rc : ResultCollection) (p : String),
      rc.files.countP (fun kv => kv.1 == p) ≤ 1 →
        (rc.get_file p).2.files.countP (fun kv => kv.1 == p) ≤ 1) := by
  have hlook : ∀ (rc : ResultCollection) (p : String),
      (rc.get_file p).2.files.lookup p = some (rc.get_file p).1 := by
    intro rc p
    unfold ResultCollection.get_file
    rcases h : rc.files.lookup p with _ | idx
    · simp only []
      rw [lookup_append_of_none p rc.files _ h]
      simp [List.lookup]
    · simp [h]
  refine ⟨?_, hlook, ?_⟩
  · intro rc p
    have h2 := hlook rc p
    rcases h : rc.files.lookup p with _ | idx <;>
      · unfold ResultCollection.get_file at h2 ⊢
        rw [h] at h2 ⊢
        simp only [] at h2 ⊢
        rw [h2]
  · intro rc p hc
    unfold ResultCollection.get_file
    rcases h : rc.files.lookup p with _ | idx
    · simp only []
      rw [List.countP_append, countP_eq_zero_of_lookup_none p rc.files h]
      simp [List.countP_cons]
    · simpa [h] using hc

/-- Witness for C8: on an empty collection and a concrete path, the second
`get_file` call returns the instance and state of the first, and the path is
registered exactly once. -/
theorem get_file_idempotent_witness :
    (ResultCollection.new.get_file "a.py").2.get_file "a.py"
        = ((ResultCollection.new.get_file "a.py").1, (ResultCollection.new.get_file "a.py").2)
      ∧ (ResultCollection.new.get_file "a.py").2.files.countP (fun kv => kv.1 == "a.py") ≤ 1 :=
  ⟨get_file_idempotent.1 ResultCollection.new "a.py",
   get_file_idempotent.2.2 ResultCollection.new "a.py" (by decide)⟩

/-- Witness for C9 (amended): for a concrete empty module the orchestrator
trace consists of the single `EMPTY` assignment and nothing else. -/
theorem file_status_state_machine_amended_witness :
    File.new.status = FileStatus.ANALYZED
    ∧ ((true = true
        ∧ orchestratorFileOps true ([] : List (String × Bool × Option String))
          = [FileOp.set FileStatus.EMPTY]
        ∧ ((orchestratorFileOps true ([] : List (String × Bool × Option String))).foldl
            applyFileOp File.new).status = FileStatus.EMPTY
        ∧ ((orchestratorFileOps true ([] : List (String × Bool × Option String))).foldl
            applyFileOp File.new).expected_docstrings = [])
      ∨ (true = false
        ∧ (∀ op ∈ orchestratorFileOps true ([] : List (String × Bool × Option String)),
            ∃ i h ir, op = FileOp.collect i h ir)
        ∧ ((orchestratorFileOps true ([] : List (String × Bool × Option String))).foldl
            applyFileOp File.new).status = FileStatus.ANALYZED)) :=
  ⟨file_status_state_machine_amended.1, file_status_state_machine_amended.2 true []⟩

end DocstrCoverage
